import Mathlib

/-!
Verification model of the CaterBasePro estimate pricing engine
(`src/client_estimates/models.py`).

Monetary values (Python `Decimal`) are modelled as exact rationals.  Python
Decimal arithmetic on the values appearing here (`+`, `-`, `*` on numbers with
few digits, well inside the 28-digit default context) is exact, and the only
rounding is the explicit `.quantize(Decimal("0.01"))` calls, whose default
rounding mode is ROUND_HALF_EVEN; `quantize2` below reproduces that.

Python truthiness drives several fallbacks in the source (`x or y` returns `y`
when `x` is `None`, `Decimal("0")`, `0`, or `""`).  The helpers `orQ` / `orOpt`
reproduce that behaviour exactly: the fallback fires on `None` AND on zero.
-/

/-- Round a rational to an integer, ties to even: Python Decimal's
ROUND_HALF_EVEN, the default mode used by `.quantize(Decimal("0.01"))`. -/
def roundHalfEven (x : ℚ) : ℤ :=
  let f : ℤ := ⌊x⌋
  let r : ℚ := x - f
  if r < 1/2 then f
  else if 1/2 < r then f + 1
  else if 2 ∣ f then f else f + 1

/-- Python `Decimal.quantize(Decimal("0.01"))` with the default ROUND_HALF_EVEN. -/
def quantize2 (x : ℚ) : ℚ := (roundHalfEven (x * 100) : ℚ) / 100

/-- Python `x or y` for a non-null Decimal `x`: `y` when `x == 0` (falsy),
else `x`. -/
def orQ (x y : ℚ) : ℚ := if x = 0 then y else x

/-- Python `x or y` for a nullable Decimal `x`: `y` when `x` is `None` or zero
(both falsy), else the value of `x`. -/
def orOpt (x : Option ℚ) (y : ℚ) : ℚ :=
  match x with
  | none => y
  | some v => if v = 0 then y else v

/-- A rational is an exact number of cents (two decimal places). -/
def IsCents (x : ℚ) : Prop := ∃ n : ℤ, x = (n : ℚ) / 100

/-- Python `str.strip()`: drop leading and trailing whitespace (the names in
a meal plan only ever carry ASCII whitespace, where the two agree). -/
def pyStrip (s : String) : String :=
  String.mk (((s.data.dropWhile Char.isWhitespace).reverse.dropWhile
    Char.isWhitespace).reverse)

/-- Python `str.lower()` (ASCII range, which covers the "kid" test). -/
def pyLower (s : String) : String := String.mk (s.data.map Char.toLower)

/-! ## Data model -/

/-- Tenant pricing defaults (`CatererAccount`).  Only the pricing fields used
by the estimate engine are modelled; all are non-null columns with defaults. -/
structure CatererAccount where
  default_food_markup : ℚ
  staff_hourly_rate : ℚ
  staff_tip_per_waiter : ℚ
  real_dishes_price_per_person : ℚ
  real_dishes_flat_fee : ℚ
deriving DecidableEq

/-- Source `MenuItem`: the category is modelled by its (optional) name, which is all
`meal_sections` reads from it. -/
structure MenuItem where
  category : Option String
  cost_per_serving : ℚ
  markup : ℚ
  default_servings_per_person : ℚ
deriving DecidableEq

/-- Source `ExtraItem.charge_type` choices. -/
inductive ChargeType where
  | perEvent
  | perPerson
deriving DecidableEq

/-- Source `ExtraItem`: only the fields the pricing engine reads. -/
structure ExtraItem where
  charge_type : ChargeType
  price : ℚ
deriving DecidableEq

/-- Source `EstimateFoodChoice` join row (the estimate FK is the owning list). -/
structure EstimateFoodChoice where
  menu_item : MenuItem
  meal_name : String
  included : Bool
  servings_per_person : Option ℚ
deriving DecidableEq

/-- Source `EstimateExtraItem` join row.  `quantity` is a non-null column
(default 1.00); `override_price` is nullable. -/
structure EstimateExtraItem where
  extra_item : ExtraItem
  quantity : ℚ
  override_price : Option ℚ
deriving DecidableEq

/-- A value stored under a meal name in the `manual_meal_totals` JSON mapping.
`emptyStr` is the empty string (skipped like an absent key); `num q` is a
value whose `Decimal(str(value)).quantize(...)` succeeds with exact value `q`;
`malformed` is a non-empty value for which that conversion raises. -/
inductive OvVal where
  | emptyStr
  | num (q : ℚ)
  | malformed
deriving DecidableEq

/-- Source `Estimate`: the pricing-relevant columns, plus the seven stored derived
fields that `recalc_totals` writes.  `pk` is whether the row has a persisted
identity (`self.pk` truthiness). -/
structure Estimate where
  pk : Bool
  caterer : CatererAccount
  guest_count : ℕ
  guest_count_kids : ℕ
  wants_real_dishes : Bool
  real_dishes_price_per_person : Option ℚ
  real_dishes_flat_fee : Option ℚ
  staff_hours : ℚ
  extra_waiters : ℕ
  staff_hourly_rate : Option ℚ
  staff_tip_per_waiter : Option ℚ
  meal_plan : List String
  manual_meal_totals : List (String × OvVal)
  deposit_percentage : ℚ
  is_ala_carte : Bool
  food_choices : List EstimateFoodChoice
  extra_lines : List EstimateExtraItem
  food_price_per_person : ℚ
  extras_total : ℚ
  staff_total : ℚ
  dishes_total : ℚ
  grand_total : ℚ
  deposit_amount : ℚ
  balance_due : ℚ

namespace Estimate

/-- Source `Estimate._get_staff_hourly_rate`:
`self.staff_hourly_rate or self.caterer.staff_hourly_rate or Decimal("0.00")`. -/
def _get_staff_hourly_rate (e : Estimate) : ℚ :=
  orOpt e.staff_hourly_rate (orQ e.caterer.staff_hourly_rate 0)

/-- Source `Estimate._get_staff_tip_per_waiter`. -/
def _get_staff_tip_per_waiter (e : Estimate) : ℚ :=
  orOpt e.staff_tip_per_waiter (orQ e.caterer.staff_tip_per_waiter 0)

/-- Source `Estimate.base_waiter_count`.  The source computes
`4 + math.ceil(extra / 25)` with Python float division; for any guest count a
32-bit column can hold, the float result rounds to a value whose ceiling is
the exact rational ceiling (the quotient is never within float error of a
different integer), and `(extra + 24) / 25` in natural division is that exact
ceiling. -/
def base_waiter_count (e : Estimate) : ℕ :=
  let guests := e.guest_count
  if guests = 0 then 0
  else if guests ≤ 50 then 2
  else if guests ≤ 75 then 3
  else if guests ≤ 100 then 4
  else 4 + (guests - 100 + 24) / 25

/-- Source `Estimate.total_waiter_count`. -/
def total_waiter_count (e : Estimate) : ℕ :=
  e.base_waiter_count + e.extra_waiters

/-- Source `Estimate._normalize_meal_plan`: strip names, drop blanks, default to a
single "Signature Menu" meal when nothing is left. -/
def _normalize_meal_plan (e : Estimate) : List String :=
  let plan := (e.meal_plan.map pyStrip).filter (fun s => s ≠ "")
  if plan = [] then ["Signature Menu"] else plan

/-- Source `Estimate.default_meal_name`. -/
def default_meal_name (e : Estimate) : String :=
  e._normalize_meal_plan.headI

/-- Source `Estimate.get_meal_plan`. -/
def get_meal_plan (e : Estimate) : List String :=
  e._normalize_meal_plan

end Estimate

/-- Does a character list start with the letters k, i, d? -/
def startsWithKid : List Char → Bool
  | 'k' :: 'i' :: 'd' :: _ => true
  | _ => false

/-- Does a character list contain k, i, d consecutively? -/
def hasKidChars : List Char → Bool
  | [] => false
  | c :: rest => startsWithKid (c :: rest) || hasKidChars rest

/-- Python `"kid" in name.lower()`. -/
def containsKid (s : String) : Bool := hasKidChars (pyLower s).data

/-- One entry of the list returned by `Estimate.meal_sections`: the dict with
meal name, grouped categories (category name paired with its choices, in
insertion order, as a Python dict preserves), and the four derived numbers. -/
structure MealSection where
  name : String
  categories : List (String × List EstimateFoodChoice)
  kids_categories : List (String × List EstimateFoodChoice)
  price_per_guest : ℚ
  price_per_child : ℚ
  total : ℚ
  kids_total : ℚ
deriving DecidableEq

/-- Python `categories.setdefault(category_name, []).append(ch)` on an
insertion-ordered dict represented as an association list. -/
def addToGroups (groups : List (String × List EstimateFoodChoice)) (key : String)
    (ch : EstimateFoodChoice) : List (String × List EstimateFoodChoice) :=
  match groups with
  | [] => [(key, [ch])]
  | (k, items) :: rest =>
    if k = key then (k, items ++ [ch]) :: rest
    else (k, items) :: addToGroups rest key ch

/-- The body of the category-grouping loop of `Estimate.meal_sections`: one
choice goes to the kids dict when its item has a category whose lowercased
name contains "kid", else to the adult dict; the category display name is
"Chef's Selection" for items without a category. -/
def assignChoice
    (acc : List (String × List EstimateFoodChoice) × List (String × List EstimateFoodChoice))
    (ch : EstimateFoodChoice) :
    List (String × List EstimateFoodChoice) × List (String × List EstimateFoodChoice) :=
  let category_name :=
    match ch.menu_item.category with
    | some c => c
    | none => "Chef's Selection"
  let isKid :=
    match ch.menu_item.category with
    | some c => containsKid c
    | none => false
  if isKid then (acc.1, addToGroups acc.2 category_name ch)
  else (addToGroups acc.1 category_name ch, acc.2)

/-- The category-grouping loop of `Estimate.meal_sections`: distribute the
meal's choices into the adult dict and the kids dict. -/
def splitCategories (meal_choices : List EstimateFoodChoice) :
    List (String × List EstimateFoodChoice) × List (String × List EstimateFoodChoice) :=
  meal_choices.foldl assignChoice ([], [])

/-- The local `_price_for(items)` helper of `Estimate.meal_sections`: sum
`cost_per_serving × effective servings × markup` over the items (the servings
override falls back to the item default via Python truthiness), quantized once
at the end. -/
def _price_for (items : List EstimateFoodChoice) : ℚ :=
  quantize2 (items.foldl
    (fun acc ch =>
      let mi := ch.menu_item
      let servings := orOpt ch.servings_per_person mi.default_servings_per_person
      acc + mi.cost_per_serving * servings * mi.markup)
    0)

namespace Estimate

/-- The choices of one meal in `Estimate.meal_sections`: included choices
whose meal name (with Python-falsy empty string replaced by the default meal)
equals this meal. -/
def mealChoices (e : Estimate) (meal_name : String) : List EstimateFoodChoice :=
  (e.food_choices.filter (fun ch => ch.included)).filter
    (fun ch =>
      (if ch.meal_name = "" then e.default_meal_name else ch.meal_name) = meal_name)

/-- The computed (pre-override) adult price-per-guest of one meal. -/
def adultPricePerGuest (e : Estimate) (meal_name : String) : ℚ :=
  _price_for (((splitCategories (e.mealChoices meal_name)).1.map Prod.snd).flatten)

/-- The computed kids price-per-guest of one meal. -/
def kidsPricePerGuest (e : Estimate) (meal_name : String) : ℚ :=
  _price_for (((splitCategories (e.mealChoices meal_name)).2.map Prod.snd).flatten)

/-- The body of the per-meal loop of `Estimate.meal_sections` (for a
persisted estimate): group the meal's choices, price both buckets, apply a
usable manual override to the adult price only (a malformed value raises
inside `try` and is ignored), and derive the two totals. -/
def sectionFor (e : Estimate) (meal_name : String) : MealSection :=
  let groups := splitCategories (e.mealChoices meal_name)
  let price_pp0 := e.adultPricePerGuest meal_name
  let price_pp_kids := e.kidsPricePerGuest meal_name
  let price_pp :=
    match List.lookup meal_name e.manual_meal_totals with
    | some (OvVal.num q) => quantize2 q
    | _ => price_pp0
  { name := meal_name
    categories := groups.1
    kids_categories := groups.2.map (fun g => (g.1 ++ " (Kids)", g.2))
    price_per_guest := price_pp
    price_per_child := price_pp_kids
    total := quantize2 (price_pp * (e.guest_count : ℚ))
    kids_total := quantize2 (price_pp_kids * (e.guest_count_kids : ℚ)) }

/-- Source `Estimate.meal_sections`: zero-priced empty sections for an unsaved
estimate, else one computed section per planned meal. -/
def meal_sections (e : Estimate) : List MealSection :=
  if e.pk then e.get_meal_plan.map e.sectionFor
  else
    e.get_meal_plan.map (fun name =>
      { name := name, categories := [], kids_categories := [],
        price_per_guest := 0, price_per_child := 0, total := 0, kids_total := 0 })

/-- Source `Estimate.calc_food_price_per_person`: sum of the sections' adult
price-per-guest, quantized at the end. -/
def calc_food_price_per_person (e : Estimate) : ℚ :=
  quantize2 (e.meal_sections.foldl (fun total s => total + s.price_per_guest) 0)

/-- Source `Estimate.calc_extras_total`: an override price is added verbatim;
otherwise price × quantity (× adult guests when per-person), where a falsy
(zero) quantity falls back to 1; quantized once at the end. -/
def calc_extras_total (e : Estimate) : ℚ :=
  quantize2 (e.extra_lines.foldl
    (fun total line =>
      match line.override_price with
      | some p => total + p
      | none =>
        let item := line.extra_item
        let qty := orQ line.quantity 1
        match item.charge_type with
        | ChargeType.perPerson => total + item.price * (e.guest_count : ℚ) * qty
        | ChargeType.perEvent => total + item.price * qty)
    0)

/-- Source `Estimate.calc_staff_total`. -/
def calc_staff_total (e : Estimate) : ℚ :=
  if e.is_ala_carte then 0
  else
    let waiters := e.total_waiter_count
    if waiters = 0 then 0
    else
      let hours := orQ e.staff_hours 0
      let rate := e._get_staff_hourly_rate
      let tip := e._get_staff_tip_per_waiter
      quantize2 (rate * hours * (waiters : ℚ) + tip * (waiters : ℚ))

/-- The `per_person` fallback expression of `Estimate.calc_dishes_total`:
`self.real_dishes_price_per_person or self.caterer.real_dishes_price_per_person`. -/
def effective_real_dishes_price_per_person (e : Estimate) : ℚ :=
  orOpt e.real_dishes_price_per_person e.caterer.real_dishes_price_per_person

/-- The `flat` fallback expression of `Estimate.calc_dishes_total`. -/
def effective_real_dishes_flat_fee (e : Estimate) : ℚ :=
  orOpt e.real_dishes_flat_fee e.caterer.real_dishes_flat_fee

/-- Source `Estimate.calc_dishes_total`. -/
def calc_dishes_total (e : Estimate) : ℚ :=
  if e.is_ala_carte then 0
  else if !e.wants_real_dishes then 0
  else
    let per_person := e.effective_real_dishes_price_per_person
    let flat := e.effective_real_dishes_flat_fee
    quantize2 (per_person * (e.guest_count : ℚ) + flat)

/-- Source `Estimate.recalc_totals`: zero all seven derived fields on an unsaved
estimate, else recompute them from the configuration. -/
def recalc_totals (e : Estimate) : Estimate :=
  if !e.pk then
    { e with food_price_per_person := 0, extras_total := 0, staff_total := 0,
             dishes_total := 0, grand_total := 0, deposit_amount := 0,
             balance_due := 0 }
  else
    let food_pp := e.calc_food_price_per_person
    let extras := e.calc_extras_total
    let staff := e.calc_staff_total
    let dishes := e.calc_dishes_total
    let food_total := food_pp * (e.guest_count : ℚ)
    let grand := food_total + extras + staff + dishes
    let deposit_rate := orQ e.deposit_percentage 0 / 100
    let deposit := quantize2 (grand * deposit_rate)
    let balance := grand - deposit
    { e with food_price_per_person := food_pp, extras_total := extras,
             staff_total := staff, dishes_total := dishes,
             grand_total := quantize2 grand, deposit_amount := deposit,
             balance_due := quantize2 balance }

end Estimate

/-! ## Spec-side restatements (for refinement comparison, written from the
claim wording rather than the source) -/

/-- The extras total exactly as claim C4 words it: an override is added
verbatim, otherwise catalog price × quantity (× adult guest count when
per-person, for EVERY quantity ≥ 0 including 0), summed, quantized once. -/
def extrasTotalClaimed (e : Estimate) : ℚ :=
  quantize2 ((e.extra_lines.map
    (fun line =>
      match line.override_price with
      | some p => p
      | none =>
        match line.extra_item.charge_type with
        | ChargeType.perPerson =>
          line.extra_item.price * line.quantity * (e.guest_count : ℚ)
        | ChargeType.perEvent => line.extra_item.price * line.quantity)).sum)

/-- The extras total as claim C4 must be amended: a zero quantity is Python
falsy and is treated as 1; for every positive quantity the claimed formula
stands. -/
def extrasTotalAmended (e : Estimate) : ℚ :=
  quantize2 ((e.extra_lines.map
    (fun line =>
      match line.override_price with
      | some p => p
      | none =>
        let q := if line.quantity = 0 then 1 else line.quantity
        match line.extra_item.charge_type with
        | ChargeType.perPerson => line.extra_item.price * q * (e.guest_count : ℚ)
        | ChargeType.perEvent => line.extra_item.price * q)).sum)

/-! ## Concrete fixtures for witnesses and counterexamples -/

/-- A tenant with the model defaults of `CatererAccount`. -/
def sampleCaterer : CatererAccount :=
  { default_food_markup := 3, staff_hourly_rate := 50, staff_tip_per_waiter := 80,
    real_dishes_price_per_person := 16, real_dishes_flat_fee := 400 }

/-- A persisted estimate with the model defaults and no selections. -/
def baseEstimate : Estimate :=
  { pk := true, caterer := sampleCaterer, guest_count := 0, guest_count_kids := 0,
    wants_real_dishes := false, real_dishes_price_per_person := none,
    real_dishes_flat_fee := none, staff_hours := 6, extra_waiters := 0,
    staff_hourly_rate := none, staff_tip_per_waiter := none, meal_plan := [],
    manual_meal_totals := [], deposit_percentage := 30, is_ala_carte := false,
    food_choices := [], extra_lines := [],
    food_price_per_person := 0, extras_total := 0, staff_total := 0,
    dishes_total := 0, grand_total := 0, deposit_amount := 0, balance_due := 0 }

/-- A menu item: category "Mains", cost 10.00, markup 3.00, servings 1.00. -/
def mainsItem : MenuItem :=
  { category := some "Mains", cost_per_serving := 10, markup := 3,
    default_servings_per_person := 1 }

/-- C4 counterexample fixture: a per-event extra priced 5.00 with quantity 0
and no override price, on a persisted estimate with 40 adults. -/
def estC4 : Estimate :=
  { baseEstimate with
      guest_count := 40,
      extra_lines :=
        [{ extra_item := { charge_type := ChargeType.perEvent, price := 5 },
           quantity := 0, override_price := none }] }

/-- C5 fixture: plan ["Dinner"], a 25.00-per-guest selection, overrides
mapping Dinner to the parseable value 30 and Lunch to a malformed string. -/
def estC5 : Estimate :=
  { baseEstimate with
      guest_count := 10,
      meal_plan := ["Dinner", "Lunch"],
      manual_meal_totals := [("Dinner", OvVal.num 30), ("Lunch", OvVal.malformed)],
      food_choices :=
        [{ menu_item := { category := some "Mains", cost_per_serving := 10,
                          markup := (5 : ℚ) / 2, default_servings_per_person := 1 },
           meal_name := "Dinner", included := true, servings_per_person := none }] }

/-- C6 fixture: estimate-level staff hourly rate explicitly zero. -/
def estC6 : Estimate := { baseEstimate with staff_hourly_rate := some 0 }

/-- C6 witness fixture: non-null, non-zero overrides for all four rates. -/
def estC6w : Estimate :=
  { baseEstimate with
      staff_hourly_rate := some 77, staff_tip_per_waiter := some 15,
      real_dishes_price_per_person := some 9, real_dishes_flat_fee := some 120 }

/-- C7 fixture: a-la-carte with every staffing/dishes input switched on. -/
def estC7 : Estimate :=
  { baseEstimate with
      is_ala_carte := true, guest_count := 80,
      guest_count_kids := 5, wants_real_dishes := true, staff_hours := 10,
      extra_waiters := 3, staff_hourly_rate := some 60,
      staff_tip_per_waiter := some 100, real_dishes_price_per_person := some 20,
      real_dishes_flat_fee := some 500 }

/-- C8 counterexample fixture: one included choice whose meal name is a
single space (whitespace-only, truthy in Python), empty meal plan. -/
def estC8 : Estimate :=
  { baseEstimate with
      guest_count := 20,
      food_choices :=
        [{ menu_item := mainsItem, meal_name := " ", included := true,
           servings_per_person := none }] }

/-- A choice with the empty meal name (Python-falsy). -/
def chC8 : EstimateFoodChoice :=
  { menu_item := mainsItem, meal_name := "", included := true,
    servings_per_person := none }

/-- C8 witness fixture: same choice but with the empty meal name. -/
def estC8w : Estimate :=
  { baseEstimate with guest_count := 20, food_choices := [chC8] }

/-- C9 fixture: unsaved estimate with two planned meals and selections that
must all be ignored. -/
def estC9 : Estimate :=
  { baseEstimate with
      pk := false, guest_count := 25,
      meal_plan := ["Friday Dinner", "Shabbos Lunch"],
      food_choices :=
        [{ menu_item := mainsItem, meal_name := "Friday Dinner", included := true,
           servings_per_person := none }] }

/-- An included choice labelled "Lunch", a meal name outside the plan. -/
def chC10 : EstimateFoodChoice :=
  { menu_item := mainsItem, meal_name := "Lunch", included := true,
    servings_per_person := none }

/-- C10 fixture: an included choice labelled with a meal name that is not in
the normalized plan. -/
def estC10 : Estimate :=
  { baseEstimate with
      guest_count := 30, meal_plan := ["Signature Menu"],
      food_choices := [chC10] }

/-- C1/C2/C3 witness fixture: a fully populated persisted estimate. -/
def estFull : Estimate :=
  { baseEstimate with
      guest_count := 101, guest_count_kids := 4,
      wants_real_dishes := true, meal_plan := ["Dinner"],
      deposit_percentage := 30, staff_hours := 6,
      food_choices :=
        [{ menu_item := mainsItem, meal_name := "Dinner", included := true,
           servings_per_person := none }],
      extra_lines :=
        [{ extra_item := { charge_type := ChargeType.perPerson, price := 5 },
           quantity := 1, override_price := none }] }

/-! ## Basic arithmetic lemmas about the Decimal model -/

theorem roundHalfEven_intCast (n : ℤ) : roundHalfEven (n : ℚ) = n := by
  unfold roundHalfEven
  norm_num

theorem isCents_quantize2 (x : ℚ) : IsCents (quantize2 x) :=
  ⟨roundHalfEven (x * 100), rfl⟩

theorem isCents_zero : IsCents 0 := ⟨0, by norm_num⟩

theorem quantize2_eq_self {x : ℚ} (h : IsCents x) : quantize2 x = x := by
  obtain ⟨n, rfl⟩ := h
  unfold quantize2
  rw [div_mul_cancel₀ (n : ℚ) (by norm_num), roundHalfEven_intCast]

theorem IsCents.add {x y : ℚ} (hx : IsCents x) (hy : IsCents y) :
    IsCents (x + y) := by
  obtain ⟨m, rfl⟩ := hx
  obtain ⟨n, rfl⟩ := hy
  exact ⟨m + n, by push_cast; ring⟩

theorem IsCents.sub {x y : ℚ} (hx : IsCents x) (hy : IsCents y) :
    IsCents (x - y) := by
  obtain ⟨m, rfl⟩ := hx
  obtain ⟨n, rfl⟩ := hy
  exact ⟨m - n, by push_cast; ring⟩

theorem IsCents.mul_nat {x : ℚ} (hx : IsCents x) (k : ℕ) :
    IsCents (x * (k : ℚ)) := by
  obtain ⟨m, rfl⟩ := hx
  exact ⟨m * k, by push_cast; ring⟩

theorem isCents_calc_food (e : Estimate) : IsCents e.calc_food_price_per_person := by
  unfold Estimate.calc_food_price_per_person
  exact isCents_quantize2 _

theorem isCents_calc_extras (e : Estimate) : IsCents e.calc_extras_total := by
  unfold Estimate.calc_extras_total
  exact isCents_quantize2 _

theorem isCents_calc_staff (e : Estimate) : IsCents e.calc_staff_total := by
  unfold Estimate.calc_staff_total
  split
  · exact isCents_zero
  · dsimp only
    split
    · exact isCents_zero
    · exact isCents_quantize2 _

theorem isCents_calc_dishes (e : Estimate) : IsCents e.calc_dishes_total := by
  unfold Estimate.calc_dishes_total
  split
  · exact isCents_zero
  · split
    · exact isCents_zero
    · dsimp only
      exact isCents_quantize2 _

/-! ## Claim theorems -/

/-- Claim C2: the waiter-tier rule.  The base waiter count is 0 for 0 adult
guests, 2 for 1-50, 3 for 51-75, 4 for 76-100 and 4 + ceil((g-100)/25)
above 100, and the total waiter count adds the manual extra waiters. -/
theorem waiter_tier_rule (e : Estimate) :
    e.total_waiter_count = e.base_waiter_count + e.extra_waiters ∧
    (e.guest_count = 0 → e.base_waiter_count = 0) ∧
    (1 ≤ e.guest_count → e.guest_count ≤ 50 → e.base_waiter_count = 2) ∧
    (51 ≤ e.guest_count → e.guest_count ≤ 75 → e.base_waiter_count = 3) ∧
    (76 ≤ e.guest_count → e.guest_count ≤ 100 → e.base_waiter_count = 4) ∧
    (100 < e.guest_count →
      (e.base_waiter_count : ℤ) = 4 + ⌈((e.guest_count : ℚ) - 100) / 25⌉) := by
  unfold Estimate.total_waiter_count Estimate.base_waiter_count
  dsimp only
  refine ⟨rfl, ?_, ?_, ?_, ?_, ?_⟩
  · intro h
    rw [if_pos h]
  · intro h1 h2
    rw [if_neg (by omega), if_pos (by omega)]
  · intro h1 h2
    rw [if_neg (by omega), if_neg (by omega), if_pos (by omega)]
  · intro h1 h2
    rw [if_neg (by omega), if_neg (by omega), if_neg (by omega), if_pos (by omega)]
  · intro h
    rw [if_neg (by omega), if_neg (by omega), if_neg (by omega), if_neg (by omega)]
    have h100 : (100 : ℕ) ≤ e.guest_count := by omega
    set a : ℕ := e.guest_count - 100 with ha
    set m : ℕ := (a + 24) / 25 with hm
    have hma : a ≤ 25 * m := by omega
    have hmb : 25 * m ≤ a + 24 := by omega
    have hcast : ((e.guest_count : ℚ) - 100) = (a : ℚ) := by
      rw [ha, Nat.cast_sub h100]
      norm_num
    rw [hcast]
    have hceil : ⌈(a : ℚ) / 25⌉ = (m : ℤ) := by
      rw [Int.ceil_eq_iff]
      constructor
      · rw [lt_div_iff₀ (by norm_num : (0:ℚ) < 25)]
        have h1 : (25 * m : ℚ) ≤ (a : ℚ) + 24 := by exact_mod_cast hmb
        push_cast
        linarith
      · rw [div_le_iff₀ (by norm_num : (0:ℚ) < 25)]
        have h2 : (a : ℚ) ≤ 25 * m := by exact_mod_cast hma
        push_cast
        linarith
    rw [hceil]
    push_cast
    ring

/-- Claim C2 witness: the literal tier cases from the spec, with the 1-50
tier discharged through the general theorem. -/
theorem waiter_tier_rule_witness :
    ({ baseEstimate with guest_count := 50 } : Estimate).base_waiter_count = 2 ∧
    ({ baseEstimate with guest_count := 0 } : Estimate).base_waiter_count = 0 ∧
    ({ baseEstimate with guest_count := 1 } : Estimate).base_waiter_count = 2 ∧
    ({ baseEstimate with guest_count := 51 } : Estimate).base_waiter_count = 3 ∧
    ({ baseEstimate with guest_count := 75 } : Estimate).base_waiter_count = 3 ∧
    ({ baseEstimate with guest_count := 76 } : Estimate).base_waiter_count = 4 ∧
    ({ baseEstimate with guest_count := 100 } : Estimate).base_waiter_count = 4 ∧
    ({ baseEstimate with guest_count := 101 } : Estimate).base_waiter_count = 5 ∧
    ({ baseEstimate with guest_count := 125 } : Estimate).base_waiter_count = 5 ∧
    ({ baseEstimate with guest_count := 126 } : Estimate).base_waiter_count = 6 ∧
    ({ baseEstimate with guest_count := 101, extra_waiters := 2 } : Estimate).total_waiter_count = 7 :=
  ⟨(waiter_tier_rule _).2.2.1 (by decide) (by decide), by decide, by decide,
   by decide, by decide, by decide, by decide, by decide, by decide, by decide,
   by decide⟩

/-- Claim C7: when the a-la-carte flag is set, the staff total and the
dishes total are both exactly zero, whatever the other inputs are. -/
theorem ala_carte_zeroing (e : Estimate) (h : e.is_ala_carte = true) :
    e.calc_staff_total = 0 ∧ e.calc_dishes_total = 0 := by
  unfold Estimate.calc_staff_total Estimate.calc_dishes_total
  rw [h]
  exact ⟨rfl, rfl⟩

/-- Claim C7 witness: a-la-carte estimate with all staffing and dishes
inputs switched on still totals zero for both. -/
theorem ala_carte_zeroing_witness :
    estC7.calc_staff_total = 0 ∧ estC7.calc_dishes_total = 0 :=
  ala_carte_zeroing estC7 (by decide)

/-- Claim C3: recalc_totals is idempotent.  It reads only configuration
fields and writes only the seven derived fields, so running it twice gives
the same record as running it once. -/
theorem recalc_idempotent (e : Estimate) :
    e.recalc_totals.recalc_totals = e.recalc_totals := by
  rcases e with ⟨pk, c, g, gk, w, rpp, rff, sh, ew, shr, stw, mp, mmt, dp, al,
    fc, el, a1, a2, a3, a4, a5, a6, a7⟩
  cases pk <;> rfl

/-- Claim C1: after recalc_totals on a persisted estimate (deposit
percentage in [0,100]), the stored grand total equals food-price-per-person
× adult guests + extras + staff + dishes exactly, and deposit + balance
equals the grand total. -/
theorem recalc_invariants (e : Estimate) (hpk : e.pk = true)
    (hd0 : 0 ≤ e.deposit_percentage) (hd100 : e.deposit_percentage ≤ 100) :
    e.recalc_totals.grand_total =
      e.recalc_totals.food_price_per_person * (e.guest_count : ℚ) +
        e.recalc_totals.extras_total + e.recalc_totals.staff_total +
        e.recalc_totals.dishes_total ∧
    e.recalc_totals.deposit_amount + e.recalc_totals.balance_due =
      e.recalc_totals.grand_total := by
  have hf := isCents_calc_food e
  have hx := isCents_calc_extras e
  have hs := isCents_calc_staff e
  have hdt := isCents_calc_dishes e
  have hG : IsCents (e.calc_food_price_per_person * (e.guest_count : ℚ) +
      e.calc_extras_total + e.calc_staff_total + e.calc_dishes_total) :=
    (((hf.mul_nat e.guest_count).add hx).add hs).add hdt
  simp only [Estimate.recalc_totals, hpk, Bool.not_true, Bool.false_eq_true,
    if_false]
  constructor
  · exact quantize2_eq_self hG
  · rw [quantize2_eq_self (hG.sub (isCents_quantize2 _)), quantize2_eq_self hG]
    ring

/-- Claim C1 witness: the invariants evaluated on a fully populated
persisted estimate with deposit percentage 30. -/
theorem recalc_invariants_witness :
    estFull.recalc_totals.grand_total =
      estFull.recalc_totals.food_price_per_person * (estFull.guest_count : ℚ) +
        estFull.recalc_totals.extras_total + estFull.recalc_totals.staff_total +
        estFull.recalc_totals.dishes_total ∧
    estFull.recalc_totals.deposit_amount + estFull.recalc_totals.balance_due =
      estFull.recalc_totals.grand_total :=
  recalc_invariants estFull (by decide) (by decide) (by decide)

/-- Claim C9: recalc on an estimate without persisted identity zeroes all
seven derived fields, and meal_sections returns one section per planned
meal, correctly named, with empty category lists and all four numbers 0. -/
theorem unsaved_estimate_zeroed (e : Estimate) (hpk : e.pk = false) :
    e.recalc_totals.food_price_per_person = 0 ∧
    e.recalc_totals.extras_total = 0 ∧
    e.recalc_totals.staff_total = 0 ∧
    e.recalc_totals.dishes_total = 0 ∧
    e.recalc_totals.grand_total = 0 ∧
    e.recalc_totals.deposit_amount = 0 ∧
    e.recalc_totals.balance_due = 0 ∧
    e.meal_sections.map MealSection.name = e.get_meal_plan ∧
    ∀ s ∈ e.meal_sections, s.categories = [] ∧ s.kids_categories = [] ∧
      s.price_per_guest = 0 ∧ s.price_per_child = 0 ∧ s.total = 0 ∧
      s.kids_total = 0 := by
  refine ⟨?_, ?_, ?_, ?_, ?_, ?_, ?_, ?_, ?_⟩ <;>
    simp only [Estimate.recalc_totals, Estimate.meal_sections, hpk,
      Bool.not_false, if_true, Bool.false_eq_true, if_false]
  · rw [List.map_map]
    exact List.map_id _
  · intro s hs
    rw [List.mem_map] at hs
    obtain ⟨name, _, rfl⟩ := hs
    exact ⟨rfl, rfl, rfl, rfl, rfl, rfl⟩

/-- Claim C9 witness: the unsaved two-meal estimate with a selection still
yields zero totals and correctly named empty sections. -/
theorem unsaved_estimate_zeroed_witness :
    estC9.recalc_totals.grand_total = 0 ∧
    estC9.meal_sections.map MealSection.name = ["Friday Dinner", "Shabbos Lunch"] :=
  ⟨(unsaved_estimate_zeroed estC9 (by decide)).2.2.2.2.1,
   ((unsaved_estimate_zeroed estC9 (by decide)).2.2.2.2.2.2.2.1).trans (by decide)⟩

/-- The extras accumulation loop equals init plus the sum of the per-line
contributions (with the Python-falsy quantity fallback made explicit). -/
theorem extras_fold_eq (gc : ℕ) (l : List EstimateExtraItem) (init : ℚ) :
    l.foldl
      (fun total line =>
        match line.override_price with
        | some p => total + p
        | none =>
          let item := line.extra_item
          let qty := orQ line.quantity 1
          match item.charge_type with
          | ChargeType.perPerson => total + item.price * (gc : ℚ) * qty
          | ChargeType.perEvent => total + item.price * qty)
      init =
    init + (l.map
      (fun line =>
        match line.override_price with
        | some p => p
        | none =>
          let q := if line.quantity = 0 then 1 else line.quantity
          match line.extra_item.charge_type with
          | ChargeType.perPerson => line.extra_item.price * q * (gc : ℚ)
          | ChargeType.perEvent => line.extra_item.price * q)).sum := by
  induction l generalizing init with
  | nil => simp
  | cons hd tl ih =>
    rw [List.foldl_cons, List.map_cons, List.sum_cons, ih]
    rcases hd with ⟨⟨ct, price⟩, qty, ov⟩
    rcases ov with _ | p
    · rcases ct with _ | _ <;>
        · dsimp only [orQ]
          ring
    · dsimp only
      ring

/-- Claim C4 counterexample: a per-event extra priced 5.00 with quantity 0
and no override contributes 5.00 (the falsy quantity is replaced by 1), not
the 5.00 × 0 = 0.00 the claim's formula gives for quantity 0. -/
theorem extras_quantity_zero_cex :
    estC4.calc_extras_total = 5 ∧ extrasTotalClaimed estC4 = 0 := by
  constructor
  · simp only [estC4, baseEstimate, Estimate.calc_extras_total,
      List.foldl_cons, List.foldl_nil, orQ]
    norm_num [quantize2, roundHalfEven]
  · simp only [estC4, baseEstimate, extrasTotalClaimed,
      List.map_cons, List.map_nil, List.sum_cons, List.sum_nil]
    norm_num [quantize2, roundHalfEven]

/-- Claim C4 amended: the extras total follows the claimed per-line formula
(override verbatim; else price × quantity, further × adult guests when
per-person; one final quantization) for every positive quantity, but a zero
quantity is treated as quantity 1. -/
theorem extras_total_amended (e : Estimate) :
    e.calc_extras_total = extrasTotalAmended e := by
  unfold Estimate.calc_extras_total extrasTotalAmended
  rw [extras_fold_eq e.guest_count e.extra_lines 0, zero_add]

/-- A Python-falsy optional value (absent or zero) makes `or` yield its
right operand. -/
theorem orOpt_falsy {o : Option ℚ} (ho : o = none ∨ o = some 0) (y : ℚ) :
    orOpt o y = y := by
  rcases ho with h | h <;> rw [h] <;> simp [orOpt]

/-- A non-null, non-zero value wins the Python `or`. -/
theorem orOpt_some_nonzero {v : ℚ} (hv : v ≠ 0) (y : ℚ) :
    orOpt (some v) y = v := by
  simp [orOpt, hv]

/-- Python `x or 0` is `x` for a non-null Decimal. -/
theorem orQ_zero_right (c : ℚ) : orQ c 0 = c := by
  unfold orQ
  split <;> simp_all

/-- Claim C6 counterexample: an explicit zero estimate-level staff hourly
rate is Python-falsy, so the effective rate is the tenant default 50, not
the overridden 0 the claim demands for every non-null override. -/
theorem override_zero_fallback_cex :
    estC6.staff_hourly_rate = some 0 ∧
    estC6.caterer.staff_hourly_rate = 50 ∧
    estC6._get_staff_hourly_rate = 50 := by
  refine ⟨rfl, rfl, ?_⟩
  simp only [Estimate._get_staff_hourly_rate, estC6, baseEstimate, sampleCaterer]
  norm_num [orOpt, orQ]

/-- Claim C6 amended: each of the four effective rates equals the
estimate-level override when it is non-null AND non-zero; when the override
is null or an explicit zero (both Python-falsy) it falls back to the tenant
default. -/
theorem override_fallback_amended (e : Estimate) :
    (∀ v, e.staff_hourly_rate = some v → v ≠ 0 →
      e._get_staff_hourly_rate = v) ∧
    (e.staff_hourly_rate = none ∨ e.staff_hourly_rate = some 0 →
      e._get_staff_hourly_rate = e.caterer.staff_hourly_rate) ∧
    (∀ v, e.staff_tip_per_waiter = some v → v ≠ 0 →
      e._get_staff_tip_per_waiter = v) ∧
    (e.staff_tip_per_waiter = none ∨ e.staff_tip_per_waiter = some 0 →
      e._get_staff_tip_per_waiter = e.caterer.staff_tip_per_waiter) ∧
    (∀ v, e.real_dishes_price_per_person = some v → v ≠ 0 →
      e.effective_real_dishes_price_per_person = v) ∧
    (e.real_dishes_price_per_person = none ∨
        e.real_dishes_price_per_person = some 0 →
      e.effective_real_dishes_price_per_person =
        e.caterer.real_dishes_price_per_person) ∧
    (∀ v, e.real_dishes_flat_fee = some v → v ≠ 0 →
      e.effective_real_dishes_flat_fee = v) ∧
    (e.real_dishes_flat_fee = none ∨ e.real_dishes_flat_fee = some 0 →
      e.effective_real_dishes_flat_fee = e.caterer.real_dishes_flat_fee) := by
  unfold Estimate._get_staff_hourly_rate Estimate._get_staff_tip_per_waiter
    Estimate.effective_real_dishes_price_per_person
    Estimate.effective_real_dishes_flat_fee
  refine ⟨?_, ?_, ?_, ?_, ?_, ?_, ?_, ?_⟩
  · intro v hv hnz
    rw [hv, orOpt_some_nonzero hnz]
  · intro ho
    rw [orOpt_falsy ho, orQ_zero_right]
  · intro v hv hnz
    rw [hv, orOpt_some_nonzero hnz]
  · intro ho
    rw [orOpt_falsy ho, orQ_zero_right]
  · intro v hv hnz
    rw [hv, orOpt_some_nonzero hnz]
  · intro ho
    rw [orOpt_falsy ho]
  · intro v hv hnz
    rw [hv, orOpt_some_nonzero hnz]
  · intro ho
    rw [orOpt_falsy ho]

/-- Claim C6 witness: non-zero overrides win; a zero override falls back to
the tenant default. -/
theorem override_fallback_amended_witness :
    estC6w._get_staff_hourly_rate = 77 ∧
    estC6w._get_staff_tip_per_waiter = 15 ∧
    estC6w.effective_real_dishes_price_per_person = 9 ∧
    estC6w.effective_real_dishes_flat_fee = 120 ∧
    estC6._get_staff_hourly_rate = estC6.caterer.staff_hourly_rate :=
  ⟨(override_fallback_amended estC6w).1 77 rfl (by norm_num),
   (override_fallback_amended estC6w).2.2.1 15 rfl (by norm_num),
   (override_fallback_amended estC6w).2.2.2.2.1 9 rfl (by norm_num),
   (override_fallback_amended estC6w).2.2.2.2.2.2.1 120 rfl (by norm_num),
   (override_fallback_amended estC6).2.1 (Or.inr rfl)⟩

/-- Claim C5: a non-empty parseable manual override replaces the computed
adult price-per-guest of its meal; the kids price is never overridden; a
malformed (or empty, or absent) override leaves the computed price in
place rather than failing. -/
theorem manual_override_precedence (e : Estimate) (hpk : e.pk = true)
    (m : String) (hm : m ∈ e.get_meal_plan) :
    e.sectionFor m ∈ e.meal_sections ∧
    (e.sectionFor m).price_per_child = e.kidsPricePerGuest m ∧
    (∀ q, List.lookup m e.manual_meal_totals = some (OvVal.num q) →
      (e.sectionFor m).price_per_guest = quantize2 q) ∧
    (List.lookup m e.manual_meal_totals = some OvVal.malformed →
      (e.sectionFor m).price_per_guest = e.adultPricePerGuest m) ∧
    (List.lookup m e.manual_meal_totals = some OvVal.emptyStr →
      (e.sectionFor m).price_per_guest = e.adultPricePerGuest m) ∧
    (List.lookup m e.manual_meal_totals = none →
      (e.sectionFor m).price_per_guest = e.adultPricePerGuest m) := by
  refine ⟨?_, rfl, ?_, ?_, ?_, ?_⟩
  · simp only [Estimate.meal_sections, hpk, if_true]
    exact List.mem_map_of_mem _ hm
  · intro q h
    unfold Estimate.sectionFor
    dsimp only
    rw [h]
  · intro h
    unfold Estimate.sectionFor
    dsimp only
    rw [h]
  · intro h
    unfold Estimate.sectionFor
    dsimp only
    rw [h]
  · intro h
    unfold Estimate.sectionFor
    dsimp only
    rw [h]

/-- Claim C5 witness: the parseable "30" override replaces Dinner's computed
adult price; Lunch's malformed override is ignored; Dinner's kids price is
the computed one. -/
theorem manual_override_precedence_witness :
    (estC5.sectionFor "Dinner").price_per_guest = quantize2 30 ∧
    (estC5.sectionFor "Lunch").price_per_guest = estC5.adultPricePerGuest "Lunch" ∧
    (estC5.sectionFor "Dinner").price_per_child = estC5.kidsPricePerGuest "Dinner" :=
  ⟨(manual_override_precedence estC5 (by decide) "Dinner" (by decide)).2.2.1 30 rfl,
   (manual_override_precedence estC5 (by decide) "Lunch" (by decide)).2.2.2.1 rfl,
   (manual_override_precedence estC5 (by decide) "Dinner" (by decide)).2.1⟩

/-- Quantizing zero gives zero. -/
theorem quantize2_zero : quantize2 0 = 0 := quantize2_eq_self isCents_zero

/-- The appended choice is a member of some group after `addToGroups`. -/
theorem mem_addToGroups_self (groups : List (String × List EstimateFoodChoice))
    (key : String) (ch : EstimateFoodChoice) :
    ∃ p ∈ addToGroups groups key ch, ch ∈ p.2 := by
  induction groups with
  | nil => exact ⟨(key, [ch]), by simp [addToGroups], by simp⟩
  | cons hd tl ih =>
    rcases hd with ⟨k, items⟩
    unfold addToGroups
    by_cases hk : k = key
    · rw [if_pos hk]
      exact ⟨(k, items ++ [ch]), by simp, by simp⟩
    · rw [if_neg hk]
      obtain ⟨p, hp, hcp⟩ := ih
      exact ⟨p, by simp [hp], hcp⟩

/-- The dict update `addToGroups` keeps every previously grouped element grouped. -/
theorem mem_addToGroups_mono (groups : List (String × List EstimateFoodChoice))
    (key : String) (ch x : EstimateFoodChoice)
    (h : ∃ p ∈ groups, x ∈ p.2) :
    ∃ p ∈ addToGroups groups key ch, x ∈ p.2 := by
  induction groups with
  | nil => simp at h
  | cons hd tl ih =>
    rcases hd with ⟨k, items⟩
    obtain ⟨p, hp, hxp⟩ := h
    unfold addToGroups
    by_cases hk : k = key
    · rw [if_pos hk]
      rcases List.mem_cons.mp hp with rfl | htl
      · exact ⟨(k, items ++ [ch]), by simp, by simp [List.mem_append.mpr (Or.inl hxp)]⟩
      · exact ⟨p, by simp [htl], hxp⟩
    · rw [if_neg hk]
      rcases List.mem_cons.mp hp with rfl | htl
      · exact ⟨(k, items), by simp, hxp⟩
      · obtain ⟨p2, hp2, hxp2⟩ := ih ⟨p, htl, hxp⟩
        exact ⟨p2, by simp [hp2], hxp2⟩

/-- A choice handed to `assignChoice` lands in one of the two dicts. -/
theorem assignChoice_mem
    (acc : List (String × List EstimateFoodChoice) × List (String × List EstimateFoodChoice))
    (ch : EstimateFoodChoice) :
    (∃ p ∈ (assignChoice acc ch).1, ch ∈ p.2) ∨
    (∃ p ∈ (assignChoice acc ch).2, ch ∈ p.2) := by
  unfold assignChoice
  dsimp only
  split
  · right
    exact mem_addToGroups_self _ _ _
  · left
    exact mem_addToGroups_self _ _ _

/-- The loop body `assignChoice` never drops an already grouped element. -/
theorem assignChoice_mono
    (acc : List (String × List EstimateFoodChoice) × List (String × List EstimateFoodChoice))
    (ch x : EstimateFoodChoice)
    (h : (∃ p ∈ acc.1, x ∈ p.2) ∨ (∃ p ∈ acc.2, x ∈ p.2)) :
    (∃ p ∈ (assignChoice acc ch).1, x ∈ p.2) ∨
    (∃ p ∈ (assignChoice acc ch).2, x ∈ p.2) := by
  unfold assignChoice
  dsimp only
  split
  · rcases h with h | h
    · exact Or.inl h
    · exact Or.inr (mem_addToGroups_mono _ _ _ _ h)
  · rcases h with h | h
    · exact Or.inl (mem_addToGroups_mono _ _ _ _ h)
    · exact Or.inr h

/-- Every choice in the grouping loop's input ends up in one of the two
dicts in the accumulator at the end. -/
theorem foldl_assignChoice_mem (l : List EstimateFoodChoice)
    (acc : List (String × List EstimateFoodChoice) × List (String × List EstimateFoodChoice))
    (x : EstimateFoodChoice)
    (h : x ∈ l ∨ (∃ p ∈ acc.1, x ∈ p.2) ∨ (∃ p ∈ acc.2, x ∈ p.2)) :
    (∃ p ∈ (l.foldl assignChoice acc).1, x ∈ p.2) ∨
    (∃ p ∈ (l.foldl assignChoice acc).2, x ∈ p.2) := by
  induction l generalizing acc with
  | nil =>
    rcases h with h | h
    · simp at h
    · exact h
  | cons hd tl ih =>
    rw [List.foldl_cons]
    apply ih
    rcases h with hmem | hacc
    · rcases List.mem_cons.mp hmem with rfl | htl
      · exact Or.inr (assignChoice_mem acc x)
      · exact Or.inl htl
    · exact Or.inr (assignChoice_mono acc hd x hacc)

/-- Every choice of a meal is listed in some adult or kids category group. -/
theorem splitCategories_mem (l : List EstimateFoodChoice)
    (ch : EstimateFoodChoice) (hch : ch ∈ l) :
    (∃ p ∈ (splitCategories l).1, ch ∈ p.2) ∨
    (∃ p ∈ (splitCategories l).2, ch ∈ p.2) :=
  foldl_assignChoice_mem l ([], []) ch (Or.inl hch)

/-- Claim C8 counterexample: a whitespace-only (single space) meal name is
truthy in Python, so the included choice is NOT treated as belonging to the
default "Signature Menu" meal: it lands in no section and contributes
nothing, where the claim requires it to appear in the first meal's section
and price (the item prices at 10.00 × 3 = 30.00 per guest). -/
theorem blank_meal_name_cex :
    estC8.default_meal_name = "Signature Menu" ∧
    estC8.food_choices ≠ [] ∧
    estC8.mealChoices "Signature Menu" = [] ∧
    (estC8.sectionFor "Signature Menu").categories = [] ∧
    (estC8.sectionFor "Signature Menu").kids_categories = [] ∧
    (estC8.sectionFor "Signature Menu").price_per_guest = 0 := by
  have hmc : estC8.mealChoices "Signature Menu" = [] := by decide
  refine ⟨by decide, by decide, hmc, by decide, by decide, ?_⟩
  have h2 : (estC8.sectionFor "Signature Menu").price_per_guest = quantize2 0 := by
    unfold Estimate.sectionFor Estimate.adultPricePerGuest
    dsimp only
    rw [hmc]
    rfl
  rw [h2, quantize2_zero]

/-- Claim C8 amended: only a choice whose meal name is the EMPTY string is
treated as belonging to the plan's first/default meal (it is selected for
that meal, for no other meal, and is listed in one of that section's adult
or kids category groups); a whitespace-only but non-empty meal name is not
remapped (and, matching no trimmed plan name, such a choice is excluded). -/
theorem blank_meal_name_amended (e : Estimate) (ch : EstimateFoodChoice)
    (hch : ch ∈ e.food_choices) (hinc : ch.included = true)
    (hblank : ch.meal_name = "") :
    ch ∈ e.mealChoices e.default_meal_name ∧
    (∀ m, m ≠ e.default_meal_name → ch ∉ e.mealChoices m) ∧
    (∃ cat items,
      ((cat, items) ∈ (e.sectionFor e.default_meal_name).categories ∨
        (cat, items) ∈ (e.sectionFor e.default_meal_name).kids_categories) ∧
      ch ∈ items) := by
  have hmem : ch ∈ e.mealChoices e.default_meal_name := by
    unfold Estimate.mealChoices
    rw [List.mem_filter, List.mem_filter]
    refine ⟨⟨hch, by simp [hinc]⟩, by simp [hblank]⟩
  refine ⟨hmem, ?_, ?_⟩
  · intro m hm hcontra
    unfold Estimate.mealChoices at hcontra
    rw [List.mem_filter] at hcontra
    have := hcontra.2
    rw [if_pos hblank] at this
    simp at this
    exact hm this.symm
  · have := splitCategories_mem _ ch hmem
    unfold Estimate.sectionFor
    dsimp only
    rcases this with ⟨p, hp, hxp⟩ | ⟨p, hp, hxp⟩
    · exact ⟨p.1, p.2, Or.inl hp, hxp⟩
    · refine ⟨p.1 ++ " (Kids)", p.2, Or.inr ?_, hxp⟩
      exact List.mem_map_of_mem (fun g => (g.1 ++ " (Kids)", g.2)) hp

/-- Claim C8 witness: the empty-meal-name choice is selected for the default
"Signature Menu" meal and listed in its "Mains" category. -/
theorem blank_meal_name_amended_witness :
    chC8 ∈ estC8w.mealChoices estC8w.default_meal_name ∧
    (∃ cat items,
      ((cat, items) ∈ (estC8w.sectionFor estC8w.default_meal_name).categories ∨
        (cat, items) ∈ (estC8w.sectionFor estC8w.default_meal_name).kids_categories) ∧
      chC8 ∈ items) :=
  ⟨(blank_meal_name_amended estC8w chC8 (List.mem_singleton.mpr rfl) rfl rfl).1,
   (blank_meal_name_amended estC8w chC8 (List.mem_singleton.mpr rfl) rfl rfl).2.2⟩

/-- On a persisted estimate, the recalculated grand total is the quantized
sum of the four components. -/
theorem recalc_grand_total (e : Estimate) (hpk : e.pk = true) :
    e.recalc_totals.grand_total =
      quantize2 (e.calc_food_price_per_person * (e.guest_count : ℚ) +
        e.calc_extras_total + e.calc_staff_total + e.calc_dishes_total) := by
  simp only [Estimate.recalc_totals, hpk, Bool.not_true, Bool.false_eq_true,
    if_false]

/-- Claim C10: an included choice whose non-empty meal name matches no name
in the normalized plan is silently excluded: it is selected for no meal, and
removing it changes no meal section, nor the food price-per-person, nor the
recalculated grand total. -/
theorem unmatched_meal_name_excluded (e : Estimate) (ch : EstimateFoodChoice)
    (l1 l2 : List EstimateFoodChoice) (hpk : e.pk = true)
    (hsplit : e.food_choices = l1 ++ ch :: l2)
    (hne : ch.meal_name ≠ "") (hnot : ch.meal_name ∉ e.get_meal_plan) :
    (∀ m ∈ e.get_meal_plan, ch ∉ e.mealChoices m) ∧
    e.meal_sections = ({ e with food_choices := l1 ++ l2 } : Estimate).meal_sections ∧
    e.calc_food_price_per_person =
      ({ e with food_choices := l1 ++ l2 } : Estimate).calc_food_price_per_person ∧
    e.recalc_totals.grand_total =
      ({ e with food_choices := l1 ++ l2 } : Estimate).recalc_totals.grand_total := by
  have hdm : ({ e with food_choices := l1 ++ l2 } : Estimate).default_meal_name =
      e.default_meal_name := rfl
  have hmc : ∀ m ∈ e.get_meal_plan,
      e.mealChoices m = ({ e with food_choices := l1 ++ l2 } : Estimate).mealChoices m := by
    intro m hm
    have hne2 : ch.meal_name ≠ m := fun h => hnot (h ▸ hm)
    unfold Estimate.mealChoices
    rw [hdm, hsplit]
    dsimp only
    by_cases hinc : ch.included = true
    · simp [List.filter_append, List.filter_cons, hinc, hne, hne2]
    · simp [List.filter_append, List.filter_cons, hinc]
  have hnin : ∀ m ∈ e.get_meal_plan, ch ∉ e.mealChoices m := by
    intro m hm hcontra
    have hne2 : ch.meal_name ≠ m := fun h => hnot (h ▸ hm)
    unfold Estimate.mealChoices at hcontra
    rw [List.mem_filter] at hcontra
    have h2 := hcontra.2
    rw [if_neg hne] at h2
    simp at h2
    exact hne2 h2
  have hsecFor : ∀ m ∈ e.get_meal_plan,
      e.sectionFor m = ({ e with food_choices := l1 ++ l2 } : Estimate).sectionFor m := by
    intro m hm
    unfold Estimate.sectionFor Estimate.adultPricePerGuest Estimate.kidsPricePerGuest
    rw [← hmc m hm]
  have hplan : ({ e with food_choices := l1 ++ l2 } : Estimate).get_meal_plan =
      e.get_meal_plan := rfl
  have hsec : e.meal_sections = ({ e with food_choices := l1 ++ l2 } : Estimate).meal_sections := by
    unfold Estimate.meal_sections
    rw [hplan]
    dsimp only
    rw [hpk]
    simp only [if_true]
    exact List.map_congr_left hsecFor
  have hfood : e.calc_food_price_per_person =
      ({ e with food_choices := l1 ++ l2 } : Estimate).calc_food_price_per_person := by
    unfold Estimate.calc_food_price_per_person
    rw [hsec]
  refine ⟨hnin, hsec, hfood, ?_⟩
  have hpk2 : ({ e with food_choices := l1 ++ l2 } : Estimate).pk = true := hpk
  rw [recalc_grand_total e hpk, recalc_grand_total _ hpk2, hfood]
  rfl

/-- Claim C10 witness: the "Lunch"-labelled choice on a one-meal plan is in
no meal's selection and dropping it leaves the grand total unchanged. -/
theorem unmatched_meal_name_excluded_witness :
    chC10 ∉ estC10.mealChoices "Signature Menu" ∧
    estC10.recalc_totals.grand_total =
      ({ estC10 with food_choices := ([] : List EstimateFoodChoice) ++ [] } : Estimate).recalc_totals.grand_total :=
  ⟨(unmatched_meal_name_excluded estC10 chC10 [] [] (by decide) rfl (by decide)
      (by decide)).1 "Signature Menu" (by decide),
   (unmatched_meal_name_excluded estC10 chC10 [] [] (by decide) rfl (by decide)
      (by decide)).2.2.2⟩
